import Mathlib

/-!
Shallow embedding of the ConcentratorD backend of the ChirpStack gateway
bridge (internal/backend/concentratord/concentratord.go) and proofs about
its translation, validation and lifecycle logic.

Conventions of the embedding:
* wire payloads and protobuf byte slices become `List Nat` (one entry per byte);
* the Go `uint32` bandwidth field of the LoRa modulation metadata becomes a
  `Nat` together with an explicit `% 2 ^ 32` wherever the Go code performs
  arithmetic that can wrap;
* nilable protobuf sub-messages become `Option`; protobuf getters applied to a
  nil receiver return the zero value, which the `Option.none` branches mirror;
* the external marshal / unmarshal capability and the ZeroMQ socket operations
  are abstracted as environment records of `Except`-valued results, so every
  control-flow path of the Go functions (success, returned error, fatal log)
  is an explicit branch of a total Lean function;
* the Go functions mutate the caller frame through the shared
  `TxInfo` pointer; the embedding passes the frame state explicitly and
  returns the post-call frame, which is exactly what the caller observes.
-/

namespace Concentratord

/-- Bytes of a ZeroMQ frame or protobuf payload, one natural number per byte. -/
abbrev Bytes := List Nat

/-- Modulo base of Go `uint32` arithmetic. -/
def U32 : Nat := 4294967296

/-- CRC status enum of the gw protobuf package: `NO_CRC = 0`, `BAD_CRC = 1`,
`CRC_OK = 2`; the zero value (returned by a getter on a nil `RxInfo`) is `NO_CRC`. -/
inductive CRCStatus where
  | noCRC
  | badCRC
  | crcOK
deriving DecidableEq, Repr

/-- LoRa branch of the modulationInfo oneof (`gw.LoRaModulationInfo`); the
bandwidth field is a Go `uint32`. -/
structure LoRaModulationInfo where
  bandwidth : Nat
  spreadingFactor : Nat
  codeRate : String
  polarizationInversion : Bool
deriving DecidableEq, Repr

/-- FSK branch of the modulationInfo oneof (`gw.FSKModulationInfo`). -/
structure FSKModulationInfo where
  frequencyDeviation : Nat
  datarate : Nat
deriving DecidableEq, Repr

/-- The modulationInfo oneof of the TXInfo messages: exactly one branch is set,
or the oneof is absent (both pointers nil in Go). -/
inductive ModulationInfo where
  | lora (info : LoRaModulationInfo)
  | fsk (info : FSKModulationInfo)
deriving DecidableEq, Repr

/-- Downlink transmission metadata (`gw.DownlinkTXInfo`), restricted to the
fields this backend reads or forwards. -/
structure DownlinkTXInfo where
  gatewayId : Bytes
  frequency : Nat
  power : Int
  board : Nat
  antenna : Nat
  context : Bytes
  modulationInfo : Option ModulationInfo
deriving DecidableEq, Repr

/-- Downlink frame (`gw.DownlinkFrame`); `txInfo` is a nilable pointer field. -/
structure DownlinkFrame where
  phyPayload : Bytes
  txInfo : Option DownlinkTXInfo
  token : Nat
  downlinkId : Bytes
  gatewayId : Bytes
deriving DecidableEq, Repr

/-- Getter chain `pl.GetTxInfo().GetLoraModulationInfo()`: the LoRa modulation
metadata, or `none` when the TXInfo pointer is nil, the oneof is unset, or the
oneof holds the FSK branch. -/
def getLoraModulationInfoDown : Option DownlinkTXInfo → Option LoRaModulationInfo
  | some info =>
    match info.modulationInfo with
    | some (ModulationInfo.lora l) => some l
    | _ => none
  | none => none

/-- Store `loRaModInfo.Bandwidth = v` through the shared pointer: replaces the
bandwidth of the LoRa modulation info inside the TXInfo and leaves every other
field untouched. The Go store is visible to the caller because the TXInfo
sub-message is shared by pointer between the argument and the caller frame. -/
def setLoraBandwidthDown (v : Nat) : Option DownlinkTXInfo → Option DownlinkTXInfo
  | some info =>
    match info.modulationInfo with
    | some (ModulationInfo.lora l) =>
        some { info with modulationInfo := some (ModulationInfo.lora { l with bandwidth := v }) }
    | _ => some info
  | none => none

/-- Bandwidth rebasing step of SendDownlinkFrame (concentratord.go lines
122 to 125): when LoRa modulation metadata is present, multiply its bandwidth
by 1000 in Go `uint32` arithmetic, in place; otherwise leave the frame alone. -/
def rebaseDown (pl : DownlinkFrame) : DownlinkFrame :=
  match getLoraModulationInfoDown pl.txInfo with
  | some l =>
      { pl with txInfo := setLoraBandwidthDown (l.bandwidth * 1000 % U32) pl.txInfo }
  | none => pl

/-- Downlink acknowledgement (`gw.DownlinkTXAck`). -/
structure DownlinkTXAck where
  gatewayId : Bytes
  token : Nat
  error : String
  downlinkId : Bytes
deriving DecidableEq, Repr

/-- Outcome of one run of `commandRequest`, assembled from the abstracted
marshal result, the SendMulti result and the Recv result, in the order the Go
code consults them (concentratord.go lines 167 to 192). A `none` marshal
argument models a nil protobuf message (the `gateway_id` query). -/
def commandRequest (marshalResult : Option (Except String Bytes))
    (sendResult : Except String Unit) (recvResult : Except String Bytes) :
    Except String Bytes :=
  match marshalResult with
  | some (Except.error e) => Except.error ("protobuf marshal error: " ++ e)
  | _ =>
    match sendResult with
    | Except.error e => Except.error ("send command request error: " ++ e)
    | Except.ok _ =>
      match recvResult with
      | Except.error e => Except.error ("receive command request reply error: " ++ e)
      | Except.ok reply => Except.ok reply

/-- Environment of one SendDownlinkFrame call: the external protobuf codec and
the results the command socket would deliver for this exchange. -/
structure DownEnv where
  marshal : DownlinkFrame → Except String Bytes
  sendResult : Except String Unit
  recvResult : Except String Bytes
  unmarshalAck : Bytes → Except String DownlinkTXAck

/-- Observable outcome of a SendDownlinkFrame call: normal return, an error
returned to the caller, or process termination through the fatal logging path
(`log.Fatal` exits the whole process, so the call never returns). -/
inductive SendOutcome where
  | ok
  | callerError (msg : String)
  | fatal (msg : String)
deriving DecidableEq, Repr

/-- Everything a SendDownlinkFrame call leaves behind: its outcome, the caller
frame after the call (the TXInfo sub-message is shared by pointer, so the
mutation performed inside the call is the caller state), the frame handed to
the protobuf encoder (what appears on the wire), and the acknowledgements
enqueued on the downlink acknowledgement queue. -/
structure SendResult where
  outcome : SendOutcome
  frame : DownlinkFrame
  wireFrame : DownlinkFrame
  acks : List DownlinkTXAck
deriving Repr

/-- SendDownlinkFrame (concentratord.go lines 121 to 150): rebase the LoRa
bandwidth in place, run the command exchange with topic string down, treat a
command error as fatal to the process, a zero-length reply as an error
returned to the caller, an unmarshallable reply as an error returned to the
caller, and otherwise enqueue the decoded acknowledgement and return nil. -/
def sendDownlinkFrame (env : DownEnv) (pl : DownlinkFrame) : SendResult :=
  let pl2 := rebaseDown pl
  match commandRequest (some (env.marshal pl2)) env.sendResult env.recvResult with
  | Except.error e =>
      { outcome := SendOutcome.fatal ("send downlink command error: " ++ e),
        frame := pl2, wireFrame := pl2, acks := [] }
  | Except.ok bb =>
      if bb.length = 0 then
        { outcome := SendOutcome.callerError
            "no reply receieved, check concentratord logs for error",
          frame := pl2, wireFrame := pl2, acks := [] }
      else
        match env.unmarshalAck bb with
        | Except.error e =>
            { outcome := SendOutcome.callerError ("protobuf unmarshal error: " ++ e),
              frame := pl2, wireFrame := pl2, acks := [] }
        | Except.ok ack =>
            { outcome := SendOutcome.ok, frame := pl2, wireFrame := pl2, acks := [ack] }

/-- Uplink receive metadata (`gw.UplinkRXInfo`), restricted to the fields this
backend reads or forwards. -/
structure UplinkRXInfo where
  gatewayId : Bytes
  uplinkId : Bytes
  rssi : Int
  channel : Nat
  rfChain : Nat
  context : Bytes
  crcStatus : CRCStatus
deriving DecidableEq, Repr

/-- Uplink transmission metadata (`gw.UplinkTXInfo`). -/
structure UplinkTXInfo where
  frequency : Nat
  modulationInfo : Option ModulationInfo
deriving DecidableEq, Repr

/-- Uplink frame (`gw.UplinkFrame`); both sub-messages are nilable pointers. -/
structure UplinkFrame where
  phyPayload : Bytes
  txInfo : Option UplinkTXInfo
  rxInfo : Option UplinkRXInfo
deriving DecidableEq, Repr

/-- Getter chain `pl.GetTxInfo().GetLoraModulationInfo()` on an uplink frame. -/
def getLoraModulationInfoUp : Option UplinkTXInfo → Option LoRaModulationInfo
  | some info =>
    match info.modulationInfo with
    | some (ModulationInfo.lora l) => some l
    | _ => none
  | none => none

/-- Store through the shared LoRa modulation pointer of an uplink TXInfo. -/
def setLoraBandwidthUp (v : Nat) : Option UplinkTXInfo → Option UplinkTXInfo
  | some info =>
    match info.modulationInfo with
    | some (ModulationInfo.lora l) =>
        some { info with modulationInfo := some (ModulationInfo.lora { l with bandwidth := v }) }
    | _ => some info
  | none => none

/-- Getter chain `pl.GetRxInfo().GetCrcStatus()`: the CRC status, or the enum
zero value `NO_CRC` when the RxInfo pointer is nil. -/
def getCrcStatus : Option UplinkRXInfo → CRCStatus
  | some info => info.crcStatus
  | none => CRCStatus.noCRC

/-- Bandwidth rebasing step of handleUplinkFrame (concentratord.go lines 251
to 254): when LoRa modulation metadata is present, divide its bandwidth by
1000 (Go `uint32` division truncates, as `Nat` division does), in place. -/
def rebaseUp (pl : UplinkFrame) : UplinkFrame :=
  match getLoraModulationInfoUp pl.txInfo with
  | some l =>
      { pl with txInfo := setLoraBandwidthUp (l.bandwidth / 1000) pl.txInfo }
  | none => pl

/-- handleUplinkFrame (concentratord.go lines 233 to 263): unmarshal the
payload (a failure is returned to the event loop, which logs it and goes on);
with CRC checking enabled, drop a frame whose CRC status is not OK without
enqueueing; otherwise rebase the bandwidth and enqueue the frame on the uplink
frame queue. The returned list is the queue content produced by this call. -/
def handleUplinkFrame (crcCheck : Bool) (decode : Bytes → Except String UplinkFrame)
    (bb : Bytes) : Except String (List UplinkFrame) :=
  match decode bb with
  | Except.error e => Except.error ("protobuf unmarshal error: " ++ e)
  | Except.ok pl =>
    if crcCheck ∧ getCrcStatus pl.rxInfo ≠ CRCStatus.crcOK then
      Except.ok []
    else
      Except.ok [rebaseUp pl]

/-- Gateway statistics report (`gw.GatewayStats`), restricted to the fields
this backend reads or forwards. -/
structure GatewayStats where
  gatewayId : Bytes
  statsId : Bytes
  rxPacketsReceived : Nat
  rxPacketsReceivedOK : Nat
  txPacketsReceived : Nat
  txPacketsEmitted : Nat
deriving DecidableEq, Repr

/-- handleGatewayStats (concentratord.go lines 265 to 282): unmarshal the
payload and enqueue the report on the stats queue, unconditionally. -/
def handleGatewayStats (decode : Bytes → Except String GatewayStats)
    (bb : Bytes) : Except String (List GatewayStats) :=
  match decode bb with
  | Except.error e => Except.error ("protobuf unmarshal error: " ++ e)
  | Except.ok pl => Except.ok [pl]

/-- The 64-bit gateway identifier (`lorawan.EUI64`), as its eight bytes. -/
abbrev EUI64 := List Nat

/-- A subscribe or unsubscribe notification (`events.Subscribe`). -/
structure SubscribeEvent where
  subscribe : Bool
  gatewayID : EUI64
deriving DecidableEq, Repr

/-- Contents appended to the four output queues of the backend by one
operation. SendDownlinkFrame writes only the acknowledgement queue, the event
loop writes only the uplink and stats queues, and initialization writes only
the subscribe event queue; each field is the sequence of values the operation
sends on the corresponding channel. -/
structure Effects where
  acks : List DownlinkTXAck
  uplinks : List UplinkFrame
  stats : List GatewayStats
  subs : List SubscribeEvent
deriving Repr

/-- The empty queue effect: no channel received anything. -/
def Effects.empty : Effects :=
  { acks := [], uplinks := [], stats := [], subs := [] }

/-- Environment of the event loop: the external protobuf codec for the two
recognized payload kinds, plus the configured CRC check flag. -/
structure EventEnv where
  crcCheck : Bool
  decodeUplink : Bytes → Except String UplinkFrame
  decodeStats : Bytes → Except String GatewayStats

/-- Result of one iteration of the event loop: either the fatal logging path
taken on a receive error of the event socket (which exits the process), or the
loop going on to its next iteration after appending the given contents to the
output queues. -/
inductive LoopStep where
  | fatalRecv (msg : String)
  | proceed (eff : Effects)
deriving Repr

/-- ASCII bytes of the topic string up. -/
def upTopic : Bytes := [117, 112]

/-- ASCII bytes of the topic string stats. -/
def statsTopic : Bytes := [115, 116, 97, 116, 115]

/-- One iteration of eventLoop (concentratord.go lines 194 to 231): a receive
error is fatal to the process; a message with zero frames is skipped silently;
a message with a frame count other than two is logged and skipped; the first
frame selects the handler (topic up or stats), any other topic is logged and
skipped; a handler error is logged and the loop goes on. -/
def eventLoopIteration (env : EventEnv) (recvd : Except String (List Bytes)) : LoopStep :=
  match recvd with
  | Except.error e => LoopStep.fatalRecv ("receive event message error: " ++ e)
  | Except.ok frames =>
    if frames.length = 0 then
      LoopStep.proceed Effects.empty
    else if frames.length ≠ 2 then
      LoopStep.proceed Effects.empty
    else
      let topic := frames.getD 0 []
      let payload := frames.getD 1 []
      if topic = upTopic then
        match handleUplinkFrame env.crcCheck env.decodeUplink payload with
        | Except.error _ => LoopStep.proceed Effects.empty
        | Except.ok ups => LoopStep.proceed { Effects.empty with uplinks := ups }
      else if topic = statsTopic then
        match handleGatewayStats env.decodeStats payload with
        | Except.error _ => LoopStep.proceed Effects.empty
        | Except.ok sts => LoopStep.proceed { Effects.empty with stats := sts }
      else
        LoopStep.proceed Effects.empty

/-- The Go `copy(gatewayID[:], bb)` into a zero-initialized 8-byte array:
byte i of the identifier is byte i of the reply when the reply is that long,
and 0 otherwise. No length check is performed. -/
def copyEUI64 (bb : Bytes) : EUI64 :=
  (List.range 8).map (fun i => bb.getD i 0)

/-- getGatewayID (concentratord.go lines 81 to 92): one command exchange with
topic string gateway_id and a nil payload; a command error is wrapped and
returned; otherwise the reply bytes are copied into the identifier. -/
def getGatewayID (sendResult : Except String Unit) (recvResult : Except String Bytes) :
    Except String EUI64 :=
  match commandRequest none sendResult recvResult with
  | Except.error e => Except.error ("request gateway id error: " ++ e)
  | Except.ok bb => Except.ok (copyEUI64 bb)

/-- Environment of NewBackend: results of the two socket dials, of the
subscribe-option call, and of the identifier command exchange. -/
structure InitEnv where
  dialEvent : Except String Unit
  setSubOption : Except String Unit
  dialCommand : Except String Unit
  idSendResult : Except String Unit
  idRecvResult : Except String Bytes

/-- NewBackend (concentratord.go lines 35 to 79), up to the start of the event
loop: dial both sockets, subscribe to all topics, query the gateway
identifier, then enqueue the single subscribe event. On success it returns the
identifier stored in the backend and the queue contents produced by
initialization; every failure aborts initialization with a wrapped error and
enqueues nothing. -/
def newBackend (env : InitEnv) : Except String (EUI64 × Effects) :=
  match env.dialEvent with
  | Except.error e => Except.error ("dial event api url error: " ++ e)
  | Except.ok _ =>
    match env.setSubOption with
    | Except.error e => Except.error ("set event option error: " ++ e)
    | Except.ok _ =>
      match env.dialCommand with
      | Except.error e => Except.error ("dial command api url error: " ++ e)
      | Except.ok _ =>
        match getGatewayID env.idSendResult env.idRecvResult with
        | Except.error e => Except.error ("get gateway id error: " ++ e)
        | Except.ok gatewayID =>
          Except.ok (gatewayID,
            { Effects.empty with subs := [{ subscribe := true, gatewayID := gatewayID }] })

/-- Close (concentratord.go lines 95 to 98): closes the event socket and
returns nil; it sends nothing on any queue. The pair is the returned error
value and the queue contents produced by the call. -/
def closeBackend : Except String Unit × Effects :=
  (Except.ok (), Effects.empty)

/-- An operation invoked on a running backend after initialization. The
constructors carry the environment the operation runs against. -/
inductive BridgeOp where
  | close
  | sendDownlink (env : DownEnv) (pl : DownlinkFrame)
  | eventIteration (env : EventEnv) (recvd : Except String (List Bytes))
  | applyConfig
  | rawForwarderCommand
deriving Inhabited

/-- Queue contents produced by one post-initialization operation, read off the
respective Go method: Close sends nothing, SendDownlinkFrame sends only
acknowledgements, an event loop iteration sends only uplinks and stats, and
ApplyConfiguration and RawPacketForwarderCommand are no-ops. -/
def opEffects : BridgeOp → Effects
  | BridgeOp.close => closeBackend.2
  | BridgeOp.sendDownlink env pl =>
      { Effects.empty with acks := (sendDownlinkFrame env pl).acks }
  | BridgeOp.eventIteration env recvd =>
      match eventLoopIteration env recvd with
      | LoopStep.fatalRecv _ => Effects.empty
      | LoopStep.proceed eff => eff
  | BridgeOp.applyConfig => Effects.empty
  | BridgeOp.rawForwarderCommand => Effects.empty

/-- All subscribe events enqueued over a whole backend lifetime: those of a
successful initialization followed by those of an arbitrary sequence of
post-initialization operations. -/
def lifetimeSubscribeEvents (env : InitEnv) (ops : List BridgeOp) :
    Except String (List SubscribeEvent) :=
  match newBackend env with
  | Except.error e => Except.error e
  | Except.ok (_, eff) =>
      Except.ok (eff.subs ++ (ops.map (fun op => (opEffects op).subs)).flatten)

/-- Wire actions observable on the command (REQ) socket. -/
inductive Act where
  | send
  | recv
deriving DecidableEq, Repr

/-- Interleaving state for two callers that each perform one commandRequest on
the same backend. Per-thread program counter through commandRequest (0 =
before Lock, 1 = holding the mutex before SendMulti, 2 = request sent and
awaiting Recv, 3 = reply received before the deferred Unlock, 4 = returned),
the holder of commandMux, and the record of wire actions tagged with the
thread that performed each, most recent first. -/
structure CState where
  pc : Bool → Nat
  lock : Option Bool
  trace : List (Bool × Act)

/-- Initial state: both callers before their call, mutex free, no wire
traffic yet. -/
def initCState : CState :=
  { pc := fun _ => 0, lock := none, trace := [] }

/-- One interleaving step: either thread performs the next instruction of
commandRequest (concentratord.go lines 167 to 192). Lock models sync.Mutex:
it proceeds only while no thread holds the mutex; Unlock is the deferred
release at return. SendMulti and Recv are the two wire actions, both executed
while holding the mutex. -/
inductive CStep : CState → CState → Prop
  | lockStep (s : CState) (t : Bool) (h : s.pc t = 0) (hl : s.lock = none) :
      CStep s { pc := fun u => if u = t then 1 else s.pc u, lock := some t,
                trace := s.trace }
  | sendStep (s : CState) (t : Bool) (h : s.pc t = 1) :
      CStep s { pc := fun u => if u = t then 2 else s.pc u, lock := s.lock,
                trace := (t, Act.send) :: s.trace }
  | recvStep (s : CState) (t : Bool) (h : s.pc t = 2) :
      CStep s { pc := fun u => if u = t then 3 else s.pc u, lock := s.lock,
                trace := (t, Act.recv) :: s.trace }
  | unlockStep (s : CState) (t : Bool) (h : s.pc t = 3) :
      CStep s { pc := fun u => if u = t then 4 else s.pc u, lock := none,
                trace := s.trace }

/-- States reachable by interleaving the two callers from the initial state. -/
def CReachable (s : CState) : Prop :=
  Relation.ReflTransGen CStep initCState s

/-- A wire record (most recent first) consisting of completed exchanges, each
a send immediately followed by the matching receive of the same thread. -/
inductive Balanced : List (Bool × Act) → Prop
  | nil : Balanced []
  | pair (t : Bool) (rest : List (Bool × Act)) (h : Balanced rest) :
      Balanced ((t, Act.recv) :: (t, Act.send) :: rest)

/-- Thread t is inside the exclusion region of commandRequest. -/
def InCritical (s : CState) (t : Bool) : Prop :=
  s.pc t = 1 ∨ s.pc t = 2 ∨ s.pc t = 3

/-- Inductive invariant of the interleaving system: the mutex is held by any
thread inside the exclusion region, and the wire record is a stack of
completed same-thread exchanges, topped by a pending send exactly when some
thread is between SendMulti and Recv. -/
def CInv (s : CState) : Prop :=
  (∀ t, InCritical s t → s.lock = some t) ∧
  ((∀ t, s.pc t ≠ 2) → Balanced s.trace) ∧
  (∀ t, s.pc t = 2 → ∃ rest, s.trace = (t, Act.send) :: rest ∧ Balanced rest)

/-- The single-flight property observed on a state: at most one thread is in
the exclusion region, and the wire record is completed same-thread exchanges,
possibly topped by one pending send owned by the mutex holder. -/
def WireDiscipline (s : CState) : Prop :=
  (∀ t1 t2, InCritical s t1 → InCritical s t2 → t1 = t2) ∧
  (Balanced s.trace ∨
    ∃ t rest, s.lock = some t ∧ s.pc t = 2 ∧
      s.trace = (t, Act.send) :: rest ∧ Balanced rest)

theorem cinv_init : CInv initCState := by
  refine ⟨?_, ?_, ?_⟩
  · intro t ht
    rcases ht with h | h | h <;> simp [initCState] at h
  · intro _
    exact Balanced.nil
  · intro t h
    simp [initCState] at h

theorem cinv_step {s s2 : CState} (hs : CInv s) (hstep : CStep s s2) : CInv s2 := by
  obtain ⟨hlock, hbal, hpend⟩ := hs
  cases hstep with
  | lockStep t h hl =>
    have hno2 : ∀ u, s.pc u ≠ 2 := by
      intro u h2
      have hc := hlock u (Or.inr (Or.inl h2))
      rw [hl] at hc
      exact Option.noConfusion hc
    refine ⟨?_, ?_, ?_⟩
    · intro u hu
      dsimp only
      dsimp only [InCritical] at hu
      by_cases hut : u = t
      · rw [hut]
      · rw [if_neg hut] at hu
        rcases hu with h1 | h1 | h1
        · have hc := hlock u (Or.inl h1)
          rw [hl] at hc
          exact Option.noConfusion hc
        · exact absurd h1 (hno2 u)
        · have hc := hlock u (Or.inr (Or.inr h1))
          rw [hl] at hc
          exact Option.noConfusion hc
    · intro _
      dsimp only
      exact hbal hno2
    · intro u hu
      dsimp only at hu
      by_cases hut : u = t
      · rw [if_pos hut] at hu
        exact absurd hu (by decide)
      · rw [if_neg hut] at hu
        exact absurd hu (hno2 u)
  | sendStep t h =>
    have hlt : s.lock = some t := hlock t (Or.inl h)
    have hno2 : ∀ u, s.pc u ≠ 2 := by
      intro u h2
      have h2l := hlock u (Or.inr (Or.inl h2))
      rw [hlt] at h2l
      have hut : t = u := Option.some.inj h2l
      rw [← hut, h] at h2
      exact absurd h2 (by decide)
    refine ⟨?_, ?_, ?_⟩
    · intro u hu
      dsimp only
      dsimp only [InCritical] at hu
      by_cases hut : u = t
      · rw [hut]
        exact hlt
      · rw [if_neg hut] at hu
        rcases hu with h1 | h1 | h1
        · exact hlock u (Or.inl h1)
        · exact absurd h1 (hno2 u)
        · exact hlock u (Or.inr (Or.inr h1))
    · intro hcon
      have hct := hcon t
      dsimp only at hct
      rw [if_pos rfl] at hct
      exact absurd rfl hct
    · intro u hu
      dsimp only at hu ⊢
      by_cases hut : u = t
      · subst hut
        exact ⟨s.trace, rfl, hbal hno2⟩
      · rw [if_neg hut] at hu
        exact absurd hu (hno2 u)
  | recvStep t h =>
    have hlt : s.lock = some t := hlock t (Or.inr (Or.inl h))
    obtain ⟨rest, htr, hbr⟩ := hpend t h
    have honly : ∀ u, u ≠ t → s.pc u ≠ 2 := by
      intro u hut h2
      have h2l := hlock u (Or.inr (Or.inl h2))
      rw [hlt] at h2l
      exact hut (Option.some.inj h2l).symm
    refine ⟨?_, ?_, ?_⟩
    · intro u hu
      dsimp only
      dsimp only [InCritical] at hu
      by_cases hut : u = t
      · rw [hut]
        exact hlt
      · rw [if_neg hut] at hu
        rcases hu with h1 | h1 | h1
        · exact hlock u (Or.inl h1)
        · exact absurd h1 (honly u hut)
        · exact hlock u (Or.inr (Or.inr h1))
    · intro _
      dsimp only
      rw [htr]
      exact Balanced.pair t rest hbr
    · intro u hu
      dsimp only at hu
      by_cases hut : u = t
      · rw [if_pos hut] at hu
        exact absurd hu (by decide)
      · rw [if_neg hut] at hu
        exact absurd hu (honly u hut)
  | unlockStep t h =>
    have hlt : s.lock = some t := hlock t (Or.inr (Or.inr h))
    have honlyc : ∀ u, u ≠ t → ¬ InCritical s u := by
      intro u hut hc
      have hcl := hlock u hc
      rw [hlt] at hcl
      exact hut (Option.some.inj hcl).symm
    have hno2 : ∀ u, s.pc u ≠ 2 := by
      intro u h2
      by_cases hut : u = t
      · rw [hut, h] at h2
        exact absurd h2 (by decide)
      · exact honlyc u hut (Or.inr (Or.inl h2))
    refine ⟨?_, ?_, ?_⟩
    · intro u hu
      dsimp only [InCritical] at hu
      exfalso
      by_cases hut : u = t
      · rw [if_pos hut] at hu
        rcases hu with h1 | h1 | h1 <;> exact absurd h1 (by decide)
      · rw [if_neg hut] at hu
        exact honlyc u hut hu
    · intro _
      dsimp only
      exact hbal hno2
    · intro u hu
      dsimp only at hu
      by_cases hut : u = t
      · rw [if_pos hut] at hu
        exact absurd hu (by decide)
      · rw [if_neg hut] at hu
        exact absurd hu (hno2 u)

theorem creachable_cinv {s : CState} (hr : CReachable s) : CInv s := by
  induction hr with
  | refl => exact cinv_init
  | tail _ hstep ih => exact cinv_step ih hstep

theorem getLora_set_down (v : Nat) (o : Option DownlinkTXInfo) (l : LoRaModulationInfo)
    (h : getLoraModulationInfoDown o = some l) :
    getLoraModulationInfoDown (setLoraBandwidthDown v o) = some { l with bandwidth := v } := by
  match o with
  | none => simp [getLoraModulationInfoDown] at h
  | some info =>
    match hm : info.modulationInfo with
    | some (ModulationInfo.lora l2) =>
      rw [getLoraModulationInfoDown] at h
      rw [hm] at h
      rw [setLoraBandwidthDown, hm]
      rw [getLoraModulationInfoDown]
      simp only [Option.some.injEq] at h
      rw [← h]
    | some (ModulationInfo.fsk f) =>
      rw [getLoraModulationInfoDown, hm] at h
      exact Option.noConfusion h
    | none =>
      rw [getLoraModulationInfoDown, hm] at h
      exact Option.noConfusion h

theorem getLora_set_up (v : Nat) (o : Option UplinkTXInfo) (l : LoRaModulationInfo)
    (h : getLoraModulationInfoUp o = some l) :
    getLoraModulationInfoUp (setLoraBandwidthUp v o) = some { l with bandwidth := v } := by
  match o with
  | none => simp [getLoraModulationInfoUp] at h
  | some info =>
    match hm : info.modulationInfo with
    | some (ModulationInfo.lora l2) =>
      rw [getLoraModulationInfoUp] at h
      rw [hm] at h
      rw [setLoraBandwidthUp, hm]
      rw [getLoraModulationInfoUp]
      simp only [Option.some.injEq] at h
      rw [← h]
    | some (ModulationInfo.fsk f) =>
      rw [getLoraModulationInfoUp, hm] at h
      exact Option.noConfusion h
    | none =>
      rw [getLoraModulationInfoUp, hm] at h
      exact Option.noConfusion h

theorem rebaseDown_of_lora (pl : DownlinkFrame) (l : LoRaModulationInfo)
    (hl : getLoraModulationInfoDown pl.txInfo = some l) :
    rebaseDown pl =
      { pl with txInfo := setLoraBandwidthDown (l.bandwidth * 1000 % U32) pl.txInfo } := by
  rw [rebaseDown, hl]

theorem rebaseUp_of_lora (pl : UplinkFrame) (l : LoRaModulationInfo)
    (hl : getLoraModulationInfoUp pl.txInfo = some l) :
    rebaseUp pl =
      { pl with txInfo := setLoraBandwidthUp (l.bandwidth / 1000) pl.txInfo } := by
  rw [rebaseUp, hl]

theorem sendDownlinkFrame_frame (env : DownEnv) (pl : DownlinkFrame) :
    (sendDownlinkFrame env pl).frame = rebaseDown pl := by
  rw [sendDownlinkFrame]
  split
  · rfl
  · split
    · rfl
    · split <;> rfl

theorem sendDownlinkFrame_wireFrame (env : DownEnv) (pl : DownlinkFrame) :
    (sendDownlinkFrame env pl).wireFrame = rebaseDown pl := by
  rw [sendDownlinkFrame]
  split
  · rfl
  · split
    · rfl
    · split <;> rfl

/-- Sample LoRa modulation metadata with a given bandwidth. -/
def sampleLora (b : Nat) : LoRaModulationInfo :=
  { bandwidth := b, spreadingFactor := 7, codeRate := "4/5", polarizationInversion := true }

/-- Sample downlink TXInfo carrying LoRa modulation with a given bandwidth. -/
def sampleDownTxInfo (b : Nat) : DownlinkTXInfo :=
  { gatewayId := [1, 2, 3, 4, 5, 6, 7, 8], frequency := 868100000, power := 14,
    board := 0, antenna := 0, context := [9],
    modulationInfo := some (ModulationInfo.lora (sampleLora b)) }

/-- Sample downlink frame carrying LoRa modulation with a given bandwidth. -/
def sampleDownFrame (b : Nat) : DownlinkFrame :=
  { phyPayload := [1, 2, 3], txInfo := some (sampleDownTxInfo b), token := 42,
    downlinkId := [0, 1, 2, 3, 4, 5, 6, 7, 8, 9, 10, 11, 12, 13, 14, 15],
    gatewayId := [1, 2, 3, 4, 5, 6, 7, 8] }

/-- Sample acknowledgement used by the sample environments. -/
def okAck : DownlinkTXAck :=
  { gatewayId := [1, 2, 3, 4, 5, 6, 7, 8], token := 42, error := "", downlinkId := [] }

/-- Environment in which the downlink exchange fully succeeds. -/
def okDownEnv : DownEnv :=
  { marshal := fun _ => Except.ok [1], sendResult := Except.ok (),
    recvResult := Except.ok [7, 7], unmarshalAck := fun _ => Except.ok okAck }

/-- Environment in which the peer answers the downlink send with a
zero-length reply. -/
def emptyReplyEnv : DownEnv :=
  { marshal := fun _ => Except.ok [1], sendResult := Except.ok (),
    recvResult := Except.ok [], unmarshalAck := fun _ => Except.ok okAck }

/-- C1, counterexample: at bandwidth 4294967295 (a valid Go `uint32` value)
the frame observed on the wire carries 4294966296, the product reduced modulo
2^32, not the exact product 4294967295000 the claim requires. -/
theorem sendDownlinkFrame_overflow_cex :
    (getLoraModulationInfoDown
        (sendDownlinkFrame okDownEnv (sampleDownFrame 4294967295)).wireFrame.txInfo).map
      LoRaModulationInfo.bandwidth = some 4294966296 ∧
    (4294966296 : Nat) ≠ 4294967295 * 1000 := by
  constructor
  · rfl
  · decide

/-- C1 (amended): for every DownlinkFrame whose TxInfo carries LoRa modulation
metadata with bandwidth B, SendDownlinkFrame rebases the bandwidth to
B * 1000 reduced modulo 2^32 (the multiplication is Go `uint32` arithmetic)
before encoding; the frame observed on the wire carries exactly that value,
which equals B * 1000 whenever B * 1000 < 2^32; and the mutation is applied in
place to the caller-supplied frame: the caller frame after the call is the
wire frame itself. -/
theorem sendDownlinkFrame_wire_bandwidth (env : DownEnv) (pl : DownlinkFrame)
    (l : LoRaModulationInfo) (hl : getLoraModulationInfoDown pl.txInfo = some l) :
    (getLoraModulationInfoDown (sendDownlinkFrame env pl).wireFrame.txInfo).map
        LoRaModulationInfo.bandwidth = some (l.bandwidth * 1000 % U32) ∧
    (sendDownlinkFrame env pl).frame = (sendDownlinkFrame env pl).wireFrame ∧
    (l.bandwidth * 1000 < U32 →
      (getLoraModulationInfoDown (sendDownlinkFrame env pl).wireFrame.txInfo).map
          LoRaModulationInfo.bandwidth = some (l.bandwidth * 1000)) := by
  have hw := sendDownlinkFrame_wireFrame env pl
  have hf := sendDownlinkFrame_frame env pl
  have hg : getLoraModulationInfoDown (rebaseDown pl).txInfo =
      some { l with bandwidth := l.bandwidth * 1000 % U32 } := by
    rw [rebaseDown_of_lora pl l hl]
    exact getLora_set_down _ _ _ hl
  refine ⟨?_, ?_, ?_⟩
  · rw [hw, hg]
    rfl
  · rw [hw, hf]
  · intro hlt
    rw [hw, hg]
    simp only [Option.map_some']
    rw [Nat.mod_eq_of_lt hlt]

/-- C1, witness: the amended theorem applied at bandwidth 125 with a fully
successful exchange; the wire value is 125000. -/
theorem sendDownlinkFrame_wire_bandwidth_witness :
    getLoraModulationInfoDown (sampleDownFrame 125).txInfo = some (sampleLora 125) ∧
    ((getLoraModulationInfoDown
        (sendDownlinkFrame okDownEnv (sampleDownFrame 125)).wireFrame.txInfo).map
        LoRaModulationInfo.bandwidth = some ((sampleLora 125).bandwidth * 1000 % U32) ∧
      (sendDownlinkFrame okDownEnv (sampleDownFrame 125)).frame =
        (sendDownlinkFrame okDownEnv (sampleDownFrame 125)).wireFrame ∧
      ((sampleLora 125).bandwidth * 1000 < U32 →
        (getLoraModulationInfoDown
            (sendDownlinkFrame okDownEnv (sampleDownFrame 125)).wireFrame.txInfo).map
            LoRaModulationInfo.bandwidth = some ((sampleLora 125).bandwidth * 1000))) :=
  ⟨rfl, sendDownlinkFrame_wire_bandwidth okDownEnv (sampleDownFrame 125) (sampleLora 125) rfl⟩

/-- C10, counterexample: at original bandwidth 4294967295, after a failing
call (zero-length reply), the caller frame carries 4294966296, which is the
product reduced modulo 2^32, not 1000 times the original value. -/
theorem mutation_persists_overflow_cex :
    (getLoraModulationInfoDown
        (sendDownlinkFrame emptyReplyEnv (sampleDownFrame 4294967295)).frame.txInfo).map
      LoRaModulationInfo.bandwidth = some 4294966296 ∧
    (4294966296 : Nat) ≠ 1000 * 4294967295 := by
  constructor
  · rfl
  · decide

/-- C10 (amended): for every DownlinkFrame whose TxInfo carries LoRa
modulation metadata, and under every environment (so for every outcome of the
call: success, zero-length reply, undecodable reply, or the fatal transport
path, where the frame state is the one left at process termination), the
caller frame after the call is exactly the original frame with the LoRa
bandwidth replaced by its value times 1000 reduced modulo 2^32; every other
field of the frame, of its TXInfo and of the LoRa metadata is unchanged. -/
theorem sendDownlinkFrame_mutation_persists (env : DownEnv) (pl : DownlinkFrame)
    (info : DownlinkTXInfo) (l : LoRaModulationInfo)
    (hi : pl.txInfo = some info)
    (hm : info.modulationInfo = some (ModulationInfo.lora l)) :
    (sendDownlinkFrame env pl).frame =
      { pl with txInfo := some { info with modulationInfo := some (ModulationInfo.lora { l with bandwidth := l.bandwidth * 1000 % U32 }) } } := by
  have hl : getLoraModulationInfoDown pl.txInfo = some l := by
    rw [hi]
    simp [getLoraModulationInfoDown, hm]
  rw [sendDownlinkFrame_frame, rebaseDown_of_lora pl l hl, hi]
  simp [setLoraBandwidthDown, hm]

/-- C10, witness: the amended theorem applied at bandwidth 125 under the
environment whose exchange fails with a zero-length reply. -/
theorem sendDownlinkFrame_mutation_persists_witness :
    (sampleDownFrame 125).txInfo = some (sampleDownTxInfo 125) ∧
    (sampleDownTxInfo 125).modulationInfo = some (ModulationInfo.lora (sampleLora 125)) ∧
    (sendDownlinkFrame emptyReplyEnv (sampleDownFrame 125)).frame =
      { sampleDownFrame 125 with txInfo := some { sampleDownTxInfo 125 with modulationInfo := some (ModulationInfo.lora { sampleLora 125 with bandwidth := (sampleLora 125).bandwidth * 1000 % U32 }) } } :=
  ⟨rfl, rfl,
    sendDownlinkFrame_mutation_persists emptyReplyEnv (sampleDownFrame 125)
      (sampleDownTxInfo 125) (sampleLora 125) rfl rfl⟩

/-- Sample uplink TXInfo carrying LoRa modulation with a given bandwidth. -/
def sampleUpTxInfo (b : Nat) : UplinkTXInfo :=
  { frequency := 868100000, modulationInfo := some (ModulationInfo.lora (sampleLora b)) }

/-- Sample uplink receive metadata with a given CRC status. -/
def sampleRxInfo (c : CRCStatus) : UplinkRXInfo :=
  { gatewayId := [1, 2, 3, 4, 5, 6, 7, 8],
    uplinkId := [0, 1, 2, 3, 4, 5, 6, 7, 8, 9, 10, 11, 12, 13, 14, 15],
    rssi := -50, channel := 2, rfChain := 1, context := [], crcStatus := c }

/-- Sample uplink frame with a given LoRa bandwidth and CRC status. -/
def sampleUpFrame (b : Nat) (c : CRCStatus) : UplinkFrame :=
  { phyPayload := [1, 2, 3], txInfo := some (sampleUpTxInfo b),
    rxInfo := some (sampleRxInfo c) }

/-- C2, counterexample: 4294966000 is divisible by 1000, yet applying the
downlink multiplication (Go `uint32` arithmetic, so reduced modulo 2^32) and
then the uplink division yields 4293671, not the original value: the two
rebasings are not mutually inverse on all values divisible by 1000. -/
theorem rebase_roundtrip_cex :
    (1000 ∣ 4294966000) ∧
    (getLoraModulationInfoDown (rebaseDown (sampleDownFrame 4294966000)).txInfo).map
        LoRaModulationInfo.bandwidth = some 4293671296 ∧
    (getLoraModulationInfoUp
        (rebaseUp (sampleUpFrame 4293671296 CRCStatus.crcOK)).txInfo).map
        LoRaModulationInfo.bandwidth = some 4293671 ∧
    (4293671 : Nat) ≠ 4294966000 := by
  refine ⟨by decide, rfl, rfl, by decide⟩

/-- C2 (amended): an uplink frame with wire bandwidth W is delivered with
bandwidth exactly W / 1000 (truncating division); dividing then multiplying
returns any wire value divisible by 1000 exactly; and multiplying then
dividing returns the original value exactly whenever the product does not
overflow the `uint32` bandwidth field, that is, whenever B * 1000 < 2^32. -/
theorem uplink_rebase_inverse (crcCheck : Bool)
    (decode : Bytes → Except String UplinkFrame) (bb : Bytes) (pl : UplinkFrame)
    (l : LoRaModulationInfo)
    (hd : decode bb = Except.ok pl)
    (hl : getLoraModulationInfoUp pl.txInfo = some l)
    (hcrc : ¬ (crcCheck = true ∧ getCrcStatus pl.rxInfo ≠ CRCStatus.crcOK)) :
    (handleUplinkFrame crcCheck decode bb = Except.ok
        [{ pl with txInfo := setLoraBandwidthUp (l.bandwidth / 1000) pl.txInfo }]) ∧
    ((getLoraModulationInfoUp (rebaseUp pl).txInfo).map LoRaModulationInfo.bandwidth
        = some (l.bandwidth / 1000)) ∧
    (∀ w : Nat, w < U32 → 1000 ∣ w → w / 1000 * 1000 % U32 = w) ∧
    (∀ b : Nat, b * 1000 < U32 → b * 1000 % U32 / 1000 = b) := by
  refine ⟨?_, ?_, ?_, ?_⟩
  · rw [handleUplinkFrame, hd]
    dsimp only
    rw [if_neg hcrc]
    rw [rebaseUp_of_lora pl l hl]
  · rw [rebaseUp_of_lora pl l hl]
    have hg := getLora_set_up (l.bandwidth / 1000) pl.txInfo l hl
    dsimp only at hg ⊢
    rw [hg]
    rfl
  · intro w hw hdvd
    rw [Nat.div_mul_cancel hdvd]
    exact Nat.mod_eq_of_lt hw
  · intro b hb
    rw [Nat.mod_eq_of_lt hb]
    exact Nat.mul_div_cancel b (by decide)

/-- C2, witness: the amended theorem applied at wire bandwidth 125000 with CRC
checking enabled and an OK CRC status; the delivered bandwidth is 125. -/
theorem uplink_rebase_inverse_witness :
    ((fun _ => Except.ok (sampleUpFrame 125000 CRCStatus.crcOK) :
        Bytes → Except String UplinkFrame) [] =
      Except.ok (sampleUpFrame 125000 CRCStatus.crcOK)) ∧
    getLoraModulationInfoUp (sampleUpFrame 125000 CRCStatus.crcOK).txInfo =
      some (sampleLora 125000) ∧
    ¬ (true = true ∧
        getCrcStatus (sampleUpFrame 125000 CRCStatus.crcOK).rxInfo ≠ CRCStatus.crcOK) ∧
    ((handleUplinkFrame true
        (fun _ => Except.ok (sampleUpFrame 125000 CRCStatus.crcOK)) [] = Except.ok
        [{ sampleUpFrame 125000 CRCStatus.crcOK with txInfo := setLoraBandwidthUp ((sampleLora 125000).bandwidth / 1000) (sampleUpFrame 125000 CRCStatus.crcOK).txInfo }]) ∧
      ((getLoraModulationInfoUp
          (rebaseUp (sampleUpFrame 125000 CRCStatus.crcOK)).txInfo).map
          LoRaModulationInfo.bandwidth = some ((sampleLora 125000).bandwidth / 1000)) ∧
      (∀ w : Nat, w < U32 → 1000 ∣ w → w / 1000 * 1000 % U32 = w) ∧
      (∀ b : Nat, b * 1000 < U32 → b * 1000 % U32 / 1000 = b)) :=
  ⟨rfl, rfl, by decide,
    uplink_rebase_inverse true (fun _ => Except.ok (sampleUpFrame 125000 CRCStatus.crcOK))
      [] (sampleUpFrame 125000 CRCStatus.crcOK) (sampleLora 125000) rfl rfl (by decide)⟩

/-- C3: with CRC checking enabled, a decodable uplink event whose CRC status
is not OK is dropped and nothing is enqueued on the uplink-frame queue; with
CRC checking disabled, every decodable uplink frame is enqueued (after its
bandwidth rebasing) regardless of its CRC status. -/
theorem crc_gate (decode : Bytes → Except String UplinkFrame) (bb : Bytes)
    (pl : UplinkFrame) (hd : decode bb = Except.ok pl) :
    (getCrcStatus pl.rxInfo ≠ CRCStatus.crcOK →
      handleUplinkFrame true decode bb = Except.ok []) ∧
    (handleUplinkFrame false decode bb = Except.ok [rebaseUp pl]) := by
  constructor
  · intro hc
    rw [handleUplinkFrame, hd]
    dsimp only
    rw [if_pos ⟨rfl, hc⟩]
  · rw [handleUplinkFrame, hd]
    dsimp only
    rw [if_neg (fun hcon : false = true ∧ _ => Bool.noConfusion hcon.1)]

/-- C3, witness: a bad-CRC frame is dropped with checking enabled, and the
same frame is enqueued with checking disabled. -/
theorem crc_gate_witness :
    ((fun _ => Except.ok (sampleUpFrame 125000 CRCStatus.badCRC) :
        Bytes → Except String UplinkFrame) [] =
      Except.ok (sampleUpFrame 125000 CRCStatus.badCRC)) ∧
    getCrcStatus (sampleUpFrame 125000 CRCStatus.badCRC).rxInfo ≠ CRCStatus.crcOK ∧
    handleUplinkFrame true
      (fun _ => Except.ok (sampleUpFrame 125000 CRCStatus.badCRC)) [] = Except.ok [] ∧
    handleUplinkFrame false
      (fun _ => Except.ok (sampleUpFrame 125000 CRCStatus.badCRC)) [] =
      Except.ok [rebaseUp (sampleUpFrame 125000 CRCStatus.badCRC)] := by
  have h := crc_gate (fun _ => Except.ok (sampleUpFrame 125000 CRCStatus.badCRC))
    [] (sampleUpFrame 125000 CRCStatus.badCRC) rfl
  exact ⟨rfl, by decide, h.1 (by decide), h.2⟩

theorem sendDownlinkFrame_empty_reply (env : DownEnv) (pl : DownlinkFrame)
    (h : commandRequest (some (env.marshal (rebaseDown pl))) env.sendResult
        env.recvResult = Except.ok []) :
    sendDownlinkFrame env pl =
      { outcome := SendOutcome.callerError
          "no reply receieved, check concentratord logs for error",
        frame := rebaseDown pl, wireFrame := rebaseDown pl, acks := [] } := by
  rw [sendDownlinkFrame]
  rw [h]
  rfl

theorem sendDownlinkFrame_transport_error (env : DownEnv) (pl : DownlinkFrame) (e : String)
    (h : commandRequest (some (env.marshal (rebaseDown pl))) env.sendResult
        env.recvResult = Except.error e) :
    sendDownlinkFrame env pl =
      { outcome := SendOutcome.fatal ("send downlink command error: " ++ e),
        frame := rebaseDown pl, wireFrame := rebaseDown pl, acks := [] } := by
  rw [sendDownlinkFrame]
  rw [h]

/-- C4: whenever the command exchange of a downlink send returns a reply of
zero length, the call returns the empty-reply error to its caller, no
acknowledgement is enqueued on the acknowledgement queue and none is returned
(the outcome is an error, not a normal return). -/
theorem empty_reply_no_ack (env : DownEnv) (pl : DownlinkFrame)
    (h : commandRequest (some (env.marshal (rebaseDown pl))) env.sendResult
        env.recvResult = Except.ok []) :
    (sendDownlinkFrame env pl).outcome = SendOutcome.callerError
        "no reply receieved, check concentratord logs for error" ∧
    (sendDownlinkFrame env pl).acks = [] := by
  rw [sendDownlinkFrame_empty_reply env pl h]
  exact ⟨rfl, rfl⟩

/-- C4, witness: the theorem applied in the environment whose peer answers
with a zero-length reply. -/
theorem empty_reply_no_ack_witness :
    commandRequest (some (emptyReplyEnv.marshal (rebaseDown (sampleDownFrame 125))))
        emptyReplyEnv.sendResult emptyReplyEnv.recvResult = Except.ok [] ∧
    ((sendDownlinkFrame emptyReplyEnv (sampleDownFrame 125)).outcome =
        SendOutcome.callerError "no reply receieved, check concentratord logs for error" ∧
      (sendDownlinkFrame emptyReplyEnv (sampleDownFrame 125)).acks = []) :=
  ⟨rfl, empty_reply_no_ack emptyReplyEnv (sampleDownFrame 125) rfl⟩

/-- C5, counterexample: a 3-byte reply to the gateway_id query is accepted,
producing the zero-padded identifier, while the claim requires every reply
shorter than 8 bytes to abort initialization with an error. -/
theorem short_reply_accepted_cex :
    getGatewayID (Except.ok ()) (Except.ok [1, 2, 3]) =
      Except.ok [1, 2, 3, 0, 0, 0, 0, 0] ∧
    ([1, 2, 3] : Bytes).length < 8 := by
  exact ⟨rfl, by decide⟩

/-- C5 (amended): the gateway-identifier query fails (with the wrapped
identifier-query error) exactly when the command exchange suffers a transport
failure on send or on receive; any successful reply, of any length including
fewer than 8 bytes, is accepted and yields the identifier whose byte i is
reply byte i when the reply is that long and zero otherwise. -/
theorem gatewayID_query (sendResult : Except String Unit)
    (recvResult : Except String Bytes) :
    (∀ e, sendResult = Except.error e →
      getGatewayID sendResult recvResult =
        Except.error ("request gateway id error: " ++
          ("send command request error: " ++ e))) ∧
    (∀ e, sendResult = Except.ok () → recvResult = Except.error e →
      getGatewayID sendResult recvResult =
        Except.error ("request gateway id error: " ++
          ("receive command request reply error: " ++ e))) ∧
    (∀ bb, sendResult = Except.ok () → recvResult = Except.ok bb →
      getGatewayID sendResult recvResult = Except.ok (copyEUI64 bb)) ∧
    (∀ bb : Bytes, copyEUI64 bb =
      [bb.getD 0 0, bb.getD 1 0, bb.getD 2 0, bb.getD 3 0,
       bb.getD 4 0, bb.getD 5 0, bb.getD 6 0, bb.getD 7 0]) := by
  refine ⟨?_, ?_, ?_, fun bb => rfl⟩
  · intro e he
    rw [getGatewayID, he]
    simp [commandRequest]
  · intro e hs he
    rw [getGatewayID, hs, he]
    simp [commandRequest]
  · intro bb hs hr
    rw [getGatewayID, hs, hr]
    simp [commandRequest]

/-- C5, witness: the amended theorem applied to a successful exchange whose
reply is 3 bytes long. -/
theorem gatewayID_query_witness :
    getGatewayID (Except.ok ()) (Except.ok [9, 8, 7]) =
      Except.ok (copyEUI64 [9, 8, 7]) :=
  (gatewayID_query (Except.ok ()) (Except.ok [9, 8, 7])).2.2.1 [9, 8, 7] rfl rfl

/-- True exactly on the fatal (process-terminating) outcome. -/
def SendOutcome.isFatal : SendOutcome → Bool
  | SendOutcome.fatal _ => true
  | _ => false

/-- C6, counterexample: a zero-length reply to a downlink send makes the call
return an error to its caller; the outcome is not the fatal
process-terminating path, contradicting the claim that the whole process
terminates as for a command-path transport fault. -/
theorem empty_reply_not_fatal_cex :
    (sendDownlinkFrame emptyReplyEnv (sampleDownFrame 125)).outcome =
      SendOutcome.callerError "no reply receieved, check concentratord logs for error" ∧
    ((sendDownlinkFrame emptyReplyEnv (sampleDownFrame 125)).outcome).isFatal = false := by
  exact ⟨rfl, rfl⟩

/-- C6 (amended): a zero-length reply to a downlink send is returned to the
caller as an error and does not take the process-terminating path; only a
failure of the command exchange itself (marshal, send or receive) takes the
fatal path that terminates the whole process. -/
theorem empty_reply_vs_transport (env : DownEnv) (pl : DownlinkFrame) :
    (commandRequest (some (env.marshal (rebaseDown pl))) env.sendResult
        env.recvResult = Except.ok [] →
      ((sendDownlinkFrame env pl).outcome).isFatal = false ∧
      (sendDownlinkFrame env pl).outcome = SendOutcome.callerError
        "no reply receieved, check concentratord logs for error") ∧
    (∀ e, commandRequest (some (env.marshal (rebaseDown pl))) env.sendResult
        env.recvResult = Except.error e →
      (sendDownlinkFrame env pl).outcome =
        SendOutcome.fatal ("send downlink command error: " ++ e) ∧
      ((sendDownlinkFrame env pl).outcome).isFatal = true) := by
  constructor
  · intro h
    rw [sendDownlinkFrame_empty_reply env pl h]
    exact ⟨rfl, rfl⟩
  · intro e h
    rw [sendDownlinkFrame_transport_error env pl e h]
    exact ⟨rfl, rfl⟩

/-- C6, witness: the amended theorem applied to the zero-length-reply
environment. -/
theorem empty_reply_vs_transport_witness :
    commandRequest (some (emptyReplyEnv.marshal (rebaseDown (sampleDownFrame 125))))
        emptyReplyEnv.sendResult emptyReplyEnv.recvResult = Except.ok [] ∧
    (((sendDownlinkFrame emptyReplyEnv (sampleDownFrame 125)).outcome).isFatal = false ∧
      (sendDownlinkFrame emptyReplyEnv (sampleDownFrame 125)).outcome =
        SendOutcome.callerError "no reply receieved, check concentratord logs for error") :=
  ⟨rfl, (empty_reply_vs_transport emptyReplyEnv (sampleDownFrame 125)).1 rfl⟩

/-- A received event message that the loop must skip: zero frames, a frame
count other than two, an unrecognized topic, or a recognized topic whose
payload fails to decode. -/
def MalformedEvent (env : EventEnv) (frames : List Bytes) : Prop :=
  frames.length = 0 ∨
  frames.length ≠ 2 ∨
  (frames.getD 0 [] ≠ upTopic ∧ frames.getD 0 [] ≠ statsTopic) ∨
  (frames.getD 0 [] = upTopic ∧
    ∃ e, env.decodeUplink (frames.getD 1 []) = Except.error e) ∨
  (frames.getD 0 [] = statsTopic ∧
    ∃ e, env.decodeStats (frames.getD 1 []) = Except.error e)

/-- C7: the event loop never terminates on a malformed or unexpected message:
for every received message with zero parts, a part count other than two, a
first part that is neither the up topic nor the stats topic, or a recognized
topic whose payload fails to decode, the iteration proceeds to the next
receive and appends nothing to any output queue. -/
theorem eventLoop_skips_malformed (env : EventEnv) (frames : List Bytes)
    (h : MalformedEvent env frames) :
    eventLoopIteration env (Except.ok frames) = LoopStep.proceed Effects.empty := by
  rw [eventLoopIteration]
  by_cases h0 : frames.length = 0
  · rw [if_pos h0]
  · rw [if_neg h0]
    by_cases h2 : frames.length ≠ 2
    · rw [if_pos h2]
    · rw [if_neg h2]
      by_cases hup : frames.getD 0 [] = upTopic
      · rw [if_pos hup]
        rcases h with hc | hc | hc | hc | hc
        · exact absurd hc h0
        · exact absurd hc h2
        · exact absurd hup hc.1
        · obtain ⟨e, he⟩ := hc.2
          rw [handleUplinkFrame, he]
        · rw [hc.1] at hup
          exact absurd hup (by decide)
      · rw [if_neg hup]
        by_cases hst : frames.getD 0 [] = statsTopic
        · rw [if_pos hst]
          rcases h with hc | hc | hc | hc | hc
          · exact absurd hc h0
          · exact absurd hc h2
          · exact absurd hst hc.2
          · exact absurd hc.1 hup
          · obtain ⟨e, he⟩ := hc.2
            rw [handleGatewayStats, he]
        · rw [if_neg hst]

/-- Environment whose decoders always fail. -/
def failUpEnv : EventEnv :=
  { crcCheck := true, decodeUplink := fun _ => Except.error "bad",
    decodeStats := fun _ => Except.error "bad" }

/-- C7, witness: a two-part message with the up topic and an undecodable
payload is skipped with no queue effect. -/
theorem eventLoop_skips_malformed_witness :
    MalformedEvent failUpEnv [[117, 112], [5]] ∧
    eventLoopIteration failUpEnv (Except.ok [[117, 112], [5]]) =
      LoopStep.proceed Effects.empty :=
  ⟨Or.inr (Or.inr (Or.inr (Or.inl ⟨rfl, ⟨"bad", rfl⟩⟩))),
    eventLoop_skips_malformed failUpEnv [[117, 112], [5]]
      (Or.inr (Or.inr (Or.inr (Or.inl ⟨rfl, ⟨"bad", rfl⟩⟩))))⟩

theorem eventLoopIteration_subs (env : EventEnv) (recvd : Except String (List Bytes))
    (eff : Effects) (h : eventLoopIteration env recvd = LoopStep.proceed eff) :
    eff.subs = [] := by
  match recvd with
  | Except.error e =>
    rw [eventLoopIteration] at h
    exact LoopStep.noConfusion h
  | Except.ok frames =>
    rw [eventLoopIteration] at h
    by_cases h0 : frames.length = 0
    · rw [if_pos h0] at h
      cases h
      rfl
    · rw [if_neg h0] at h
      by_cases h2 : frames.length ≠ 2
      · rw [if_pos h2] at h
        cases h
        rfl
      · rw [if_neg h2] at h
        by_cases hup : frames.getD 0 [] = upTopic
        · rw [if_pos hup] at h
          cases hu : handleUplinkFrame env.crcCheck env.decodeUplink (frames.getD 1 []) with
          | error e =>
            rw [hu] at h
            cases h
            rfl
          | ok ups =>
            rw [hu] at h
            cases h
            rfl
        · rw [if_neg hup] at h
          by_cases hst : frames.getD 0 [] = statsTopic
          · rw [if_pos hst] at h
            cases hs : handleGatewayStats env.decodeStats (frames.getD 1 []) with
            | error e =>
              rw [hs] at h
              cases h
              rfl
            | ok sts =>
              rw [hs] at h
              cases h
              rfl
          · rw [if_neg hst] at h
            cases h
            rfl

theorem opEffects_subs (op : BridgeOp) : (opEffects op).subs = [] := by
  cases op with
  | close => rfl
  | sendDownlink env pl => rfl
  | eventIteration env recvd =>
    rw [opEffects]
    cases hstep : eventLoopIteration env recvd with
    | fatalRecv m => rfl
    | proceed eff => exact eventLoopIteration_subs env recvd eff hstep
  | applyConfig => rfl
  | rawForwarderCommand => rfl

theorem opEffects_subs_flatten (ops : List BridgeOp) :
    (ops.map (fun op => (opEffects op).subs)).flatten = [] := by
  induction ops with
  | nil => rfl
  | cons op rest ih => simp [opEffects_subs op, ih]

theorem getGatewayID_ok (sr : Except String Unit) (rr : Except String Bytes)
    (gid : EUI64) (h : getGatewayID sr rr = Except.ok gid) :
    ∃ bb, rr = Except.ok bb ∧ gid = copyEUI64 bb := by
  rw [getGatewayID] at h
  cases hsr : sr with
  | error e =>
    rw [hsr] at h
    simp [commandRequest] at h
  | ok u =>
    cases hrr : rr with
    | error e =>
      rw [hsr, hrr] at h
      simp [commandRequest] at h
    | ok bb =>
      rw [hsr, hrr] at h
      simp [commandRequest] at h
      exact ⟨bb, rfl, h.symm⟩

/-- C8: for every Bridge whose initialization succeeds, exactly one
SubscribeEvent is ever enqueued on the subscribe-event queue over the whole
lifetime, whatever sequence of later operations (Close included) runs: the one
produced at initialization, carrying subscribe = true and the identifier
obtained from the gateway-identifier query; no operation ever produces an
unsubscribe event or a second subscribe event. -/
theorem bridge_single_subscribe (ienv : InitEnv) (ops : List BridgeOp)
    (gid : EUI64) (eff : Effects) (h : newBackend ienv = Except.ok (gid, eff)) :
    lifetimeSubscribeEvents ienv ops =
      Except.ok [{ subscribe := true, gatewayID := gid }] ∧
    ∃ bb, ienv.idRecvResult = Except.ok bb ∧ gid = copyEUI64 bb := by
  have h0 := h
  rw [newBackend] at h
  cases hde : ienv.dialEvent with
  | error e =>
    rw [hde] at h
    exact Except.noConfusion h
  | ok u1 =>
  rw [hde] at h
  cases hso : ienv.setSubOption with
  | error e =>
    rw [hso] at h
    exact Except.noConfusion h
  | ok u2 =>
  rw [hso] at h
  cases hdc : ienv.dialCommand with
  | error e =>
    rw [hdc] at h
    exact Except.noConfusion h
  | ok u3 =>
  rw [hdc] at h
  cases hg : getGatewayID ienv.idSendResult ienv.idRecvResult with
  | error e =>
    rw [hg] at h
    exact Except.noConfusion h
  | ok gid2 =>
  rw [hg] at h
  have hpair := Except.ok.inj h
  have hgid : gid2 = gid := congrArg Prod.fst hpair
  have heff : ({ Effects.empty with
      subs := [{ subscribe := true, gatewayID := gid2 }] } : Effects) = eff :=
    congrArg Prod.snd hpair
  constructor
  · rw [lifetimeSubscribeEvents, h0]
    rw [← heff]
    dsimp only
    rw [opEffects_subs_flatten ops]
    rw [hgid]
    rfl
  · obtain ⟨bb, hbb, hcopy⟩ := getGatewayID_ok _ _ _ hg
    refine ⟨bb, hbb, ?_⟩
    rw [← hgid]
    exact hcopy

/-- Environment of a fully successful initialization with an 8-byte
identifier reply. -/
def okInitEnv : InitEnv :=
  { dialEvent := Except.ok (), setSubOption := Except.ok (),
    dialCommand := Except.ok (), idSendResult := Except.ok (),
    idRecvResult := Except.ok [1, 2, 3, 4, 5, 6, 7, 8] }

/-- C8, witness: a successful initialization followed by a Close and a
downlink send yields exactly the one subscribe event. -/
theorem bridge_single_subscribe_witness :
    newBackend okInitEnv = Except.ok ([1, 2, 3, 4, 5, 6, 7, 8],
      { acks := [], uplinks := [], stats := [],
        subs := [{ subscribe := true, gatewayID := [1, 2, 3, 4, 5, 6, 7, 8] }] }) ∧
    (lifetimeSubscribeEvents okInitEnv
        [BridgeOp.close, BridgeOp.sendDownlink okDownEnv (sampleDownFrame 125)] =
      Except.ok [{ subscribe := true, gatewayID := [1, 2, 3, 4, 5, 6, 7, 8] }] ∧
    ∃ bb, okInitEnv.idRecvResult = Except.ok bb ∧
      ([1, 2, 3, 4, 5, 6, 7, 8] : EUI64) = copyEUI64 bb) :=
  ⟨rfl, bridge_single_subscribe okInitEnv
    [BridgeOp.close, BridgeOp.sendDownlink okDownEnv (sampleDownFrame 125)]
    [1, 2, 3, 4, 5, 6, 7, 8]
    { acks := [], uplinks := [], stats := [],
      subs := [{ subscribe := true, gatewayID := [1, 2, 3, 4, 5, 6, 7, 8] }] } rfl⟩

/-- C9: at most one command request is in flight at a time across the whole
Bridge: in every state reachable by interleaving two callers of
commandRequest (the exchange SendDownlinkFrame performs), at most one caller
is inside the exclusion region, and the wire record consists of completed
exchanges in which every receive immediately follows the send of the same
caller (possibly topped by one pending send owned by the mutex holder), so
two concurrent calls never interleave their request and reply bytes and every
reply is matched to the request that produced it. -/
theorem commandRequest_single_flight (s : CState) (hr : CReachable s) :
    WireDiscipline s := by
  obtain ⟨hlock, hbal, hpend⟩ := creachable_cinv hr
  constructor
  · intro t1 t2 h1 h2
    have e1 := hlock t1 h1
    have e2 := hlock t2 h2
    rw [e1] at e2
    exact Option.some.inj e2
  · by_cases h2 : ∃ t, s.pc t = 2
    · obtain ⟨t, ht⟩ := h2
      obtain ⟨rest, htr, hbr⟩ := hpend t ht
      exact Or.inr ⟨t, rest, hlock t (Or.inr (Or.inl ht)), ht, htr, hbr⟩
    · push_neg at h2
      exact Or.inl (hbal h2)

/-- State after the first caller locked the mutex. -/
def sW1 : CState :=
  { pc := fun u => if u = false then 1 else 0, lock := some false, trace := [] }

/-- State after the first caller sent its request. -/
def sW2 : CState :=
  { pc := fun u => if u = false then 2 else if u = false then 1 else 0,
    lock := some false, trace := [(false, Act.send)] }

/-- State after the first caller received its reply. -/
def sW3 : CState :=
  { pc := fun u => if u = false then 3 else if u = false then 2 else
      if u = false then 1 else 0,
    lock := some false, trace := [(false, Act.recv), (false, Act.send)] }

/-- State after the first caller released the mutex. -/
def sW4 : CState :=
  { pc := fun u => if u = false then 4 else if u = false then 3 else
      if u = false then 2 else if u = false then 1 else 0,
    lock := none, trace := [(false, Act.recv), (false, Act.send)] }

/-- State after the second caller locked the mutex. -/
def sW5 : CState :=
  { pc := fun u => if u = true then 1 else if u = false then 4 else
      if u = false then 3 else if u = false then 2 else if u = false then 1 else 0,
    lock := some true, trace := [(false, Act.recv), (false, Act.send)] }

/-- State in which the first caller has completed a full exchange and the
second caller has sent its request and awaits the reply. -/
def sTwoCallers : CState :=
  { pc := fun u => if u = true then 2 else if u = true then 1 else
      if u = false then 4 else if u = false then 3 else if u = false then 2 else
      if u = false then 1 else 0,
    lock := some true,
    trace := [(true, Act.send), (false, Act.recv), (false, Act.send)] }

theorem sTwoCallers_reachable : CReachable sTwoCallers :=
  Relation.ReflTransGen.tail
    (Relation.ReflTransGen.tail
      (Relation.ReflTransGen.tail
        (Relation.ReflTransGen.tail
          (Relation.ReflTransGen.tail
            (Relation.ReflTransGen.tail Relation.ReflTransGen.refl
              (CStep.lockStep initCState false rfl rfl))
            (CStep.sendStep sW1 false rfl))
          (CStep.recvStep sW2 false rfl))
        (CStep.unlockStep sW3 false rfl))
      (CStep.lockStep sW4 true rfl rfl))
    (CStep.sendStep sW5 true rfl)

/-- C9, witness: the theorem applied to a concrete reachable state with a
completed exchange by one caller and a pending request by the other. -/
theorem commandRequest_single_flight_witness :
    CReachable sTwoCallers ∧ WireDiscipline sTwoCallers :=
  ⟨sTwoCallers_reachable, commandRequest_single_flight sTwoCallers sTwoCallers_reachable⟩

end Concentratord
